import Mathlib

/-!
Verification of the job-search pipeline in `src/app.py`.

The development shallowly embeds the three pieces of the program that carry
observable behavior:

* `search_jobs` — the tool adapter `_search_jobs` (app.py lines 15-37), with
  Python exception semantics made explicit through `Except PyExc`: the
  `except requests.exceptions.RequestException` clause catches exactly the
  `PyExc.requestException` constructor.
* `callback_function` — the completion hook (app.py lines 47-50), with the
  `with open(...)` scoped-acquisition semantics (close on every exit path,
  re-raise of a body exception) made explicit.
* the four-task dependency graph declared at app.py lines 91-129.
-/

namespace JobSearch

/-- The two Adzuna credential environment variables as seen by `os.getenv`;
`none` models an unset variable, `some ""` a variable set to the empty string. -/
structure Env where
  adzuna_app_id : Option String
  adzuna_api_key : Option String

/-- Python truthiness of an `os.getenv` result: `None` and `""` are falsy. -/
def pyTruthy : Option String → Bool
  | none => false
  | some s => s ≠ ""

/-- One record of the upstream `results` array, exposing the four fields the
code reads: `title`, `company.display_name`, `location.display_name`,
`description` (app.py line 33). -/
structure Job where
  title : String
  company_display_name : String
  location_display_name : String
  description : String

/-- The parsed JSON body of a response. `results := none` models a JSON object
with no `results` key, so that `jobs_data.get('results', [])` (app.py line 32)
falls back to the empty list. -/
structure JobsData where
  results : Option (List Job)

/-- Upstream behavior of the single `requests.get` call: either a
transport-level failure (raised as a `RequestException`) or a response with an
HTTP status code and a parsed body. -/
inductive Upstream
  | transportError (msg : String)
  | response (status : Nat) (body : JobsData)

/-- Python exceptions relevant to `_search_jobs`. The `except` clause at
app.py line 36 catches exactly `requestException`; any other exception would
propagate to the caller. -/
inductive PyExc
  | requestException (msg : String)
  | otherExc (msg : String)

/-- The URL built at app.py lines 22-24. -/
def adzuna_url (app_id api_key : String) (num_results : Int)
    (role location : String) : String :=
  "http://api.adzuna.com/v1/api/jobs/us/search/1" ++
  "?app_id=" ++ app_id ++ "&app_key=" ++ api_key ++
  "&results_per_page=" ++ toString num_results ++ "&what=" ++ role ++
  "&where=" ++ location ++ "&content-type=application/json"

/-- `requests.get(url)`: a transport failure raises a
`requests.exceptions.RequestException`; otherwise a response comes back. -/
def requestsGet (up : Upstream) (_url : String) :
    Except PyExc (Nat × JobsData) :=
  match up with
  | .transportError msg => .error (.requestException msg)
  | .response status body => .ok (status, body)

/-- `response.raise_for_status()`: raises `requests.exceptions.HTTPError`
(a subclass of `RequestException`) exactly for 4xx and 5xx status codes. -/
def raise_for_status (status : Nat) : Except PyExc Unit :=
  if 400 ≤ status ∧ status < 600 then
    .error (.requestException ("HTTP error for status " ++ toString status))
  else
    .ok ()

/-- Python string slice `s[:n]`: the first `n` characters (all of `s` when it
is shorter). -/
def pyTake (s : String) (n : Nat) : String := ⟨s.data.take n⟩

/-- The per-record f-string of app.py line 33. -/
def job_details (job : Job) : String :=
  "Title: " ++ job.title ++ ", Company: " ++ job.company_display_name ++
  ", Location: " ++ job.location_display_name ++ ", Description: " ++
  pyTake job.description 100 ++ "..."

/-- Python `'\n'.join(xs)`. -/
def joinNl : List String → String
  | [] => ""
  | [s] => s
  | s :: rest => s ++ "\n" ++ joinNl rest

/-- Python `s or default` for strings: the empty string is falsy. -/
def pyOr (s dflt : String) : String := if s = "" then dflt else s

/-- The body of the `try` block at app.py lines 26-35. -/
def search_jobs_try (up : Upstream) (url : String) : Except PyExc String := do
  let (status, jobs_data) ← requestsGet up url
  raise_for_status status
  let job_listings := (jobs_data.results.getD []).map job_details
  return pyOr (joinNl job_listings) "No jobs found."

/-- `_search_jobs` (app.py lines 15-37). The result is `Except PyExc String`
so that "the function raises" is representable; the `except` clause catches
only `PyExc.requestException` and turns it into the `"Request error: ..."`
string. -/
def search_jobs (env : Env) (role location : String) (num_results : Int)
    (up : Upstream) : Except PyExc String :=
  let app_id := env.adzuna_app_id
  let api_key := env.adzuna_api_key
  if !pyTruthy app_id || !pyTruthy api_key then
    .ok "Missing ADZUNA_APP_ID or ADZUNA_API_KEY environment variables."
  else
    let url := adzuna_url (app_id.getD "") (api_key.getD "")
      num_results role location
    match search_jobs_try up url with
    | .ok s => .ok s
    | .error (.requestException msg) => .ok ("Request error: " ++ msg)
    | .error e => .error e

/-- Outcome of one call to the completion hook: the durable store's contents
afterwards, whether the file handle was closed on exit, whether the
`"Result saved to task_output.txt"` line was printed, and the exception (if
any) propagating out of the hook. -/
structure CallbackOutcome where
  store : String
  handleClosed : Bool
  printed : Bool
  exc : Option String
deriving DecidableEq, Repr

/-- `file.write(text)` on a handle opened in append mode, with an injected
failure flag standing for an OS-level write error. -/
def fileWrite (writeFails : Bool) (contents text : String) :
    Except String String :=
  if writeFails then .error "OSError: write failed" else .ok (contents ++ text)

/-- `with open("task_output.txt", "a") as file: <body>`: the handle is closed
on every exit path; an exception raised by the body is re-raised after the
close. Returns (store contents after, handle closed, propagated exception). -/
def withOpenAppend (store : String) (body : String → Except String String) :
    String × Bool × Option String :=
  match body store with
  | .ok s2 => (s2, true, none)
  | .error e => (store, true, some e)

/-- `callback_function` (app.py lines 47-50). The `print` on line 50 sits
after the `with` block, so it runs only when no exception was raised. -/
def callback_function (writeFails : Bool) (store : String)
    (task_result : String) : CallbackOutcome :=
  let (s2, closed, exc) :=
    withOpenAppend store
      (fun contents => fileWrite writeFails contents (task_result ++ "\n\n"))
  { store := s2
    handleClosed := closed
    printed := exc.isNone
    exc := exc }

/-- The four tasks declared at app.py lines 91-121. -/
inductive TaskId
  | job_search
  | skills_highlighting
  | interview_preparation
  | career_advisory
deriving DecidableEq, Fintype, Repr

/-- The `context=[...]` dependency edges of app.py lines 91-121:
`job_search_task` has no context, and each of the three downstream tasks has
`context=[job_search_task]`. -/
def depends_on : TaskId → List TaskId
  | .job_search => []
  | .skills_highlighting => [.job_search]
  | .interview_preparation => [.job_search]
  | .career_advisory => [.job_search]

/-- Modelled from the spec: the scheduling semantics live in the external
crewai framework, not under src/. Per the spec, "every task executes after
all of its depends_on tasks have frozen results — dependency order is never
violated regardless of scheduling process". An execution order is any
sequencing of all four tasks in which each task appears after every task it
depends on. -/
def ValidExec (ord : List TaskId) : Prop :=
  ord.Nodup ∧ (∀ t : TaskId, t ∈ ord) ∧
    ∀ t ∈ ord, ∀ d ∈ depends_on t, ord.indexOf d < ord.indexOf t

instance (ord : List TaskId) : Decidable (ValidExec ord) := by
  unfold ValidExec; infer_instance

/-! ### Shared lemmas -/

/-- A formatted job line is never the empty string (it starts with
`"Title: "` and ends with `"..."`). -/
theorem job_details_ne_empty (j : Job) : job_details j ≠ "" := by
  intro h
  have h2 := congrArg String.length h
  simp [job_details, String.length_append] at h2
  exact absurd h2.2 (by decide)

/-- Joining a list headed by a nonempty string is nonempty. -/
theorem joinNl_cons_ne_empty (s : String) (hs : s ≠ "") (rest : List String) :
    joinNl (s :: rest) ≠ "" := by
  cases rest with
  | nil => simpa [joinNl] using hs
  | cons t ts =>
      intro h
      have h2 := congrArg String.length h
      simp [joinNl, String.length_append] at h2
      exact absurd h2.1.2 (by decide)

/-- Unfolding of the `try` body on a response, with the 4xx/5xx test of
`raise_for_status` exposed. -/
theorem search_jobs_try_response (status : Nat) (body : JobsData)
    (url : String) :
    search_jobs_try (.response status body) url =
      (fun _ : Unit =>
        pyOr (joinNl ((body.results.getD []).map job_details))
          "No jobs found.") <$>
        (if 400 ≤ status ∧ status < 600 then
          Except.error (PyExc.requestException
            ("HTTP error for status " ++ toString status))
        else Except.ok ()) := rfl

/-- On a 4xx/5xx response the `try` body raises an `HTTPError`. -/
theorem search_jobs_try_response_error (status : Nat) (body : JobsData)
    (url : String) (h : 400 ≤ status ∧ status < 600) :
    search_jobs_try (.response status body) url =
      .error (.requestException
        ("HTTP error for status " ++ toString status)) := by
  rw [search_jobs_try_response, if_pos h, Except.map_error]

/-- On a success response the `try` body returns the joined listing (or the
no-jobs fallback). -/
theorem search_jobs_try_response_ok (status : Nat) (body : JobsData)
    (url : String) (h : ¬ (400 ≤ status ∧ status < 600)) :
    search_jobs_try (.response status body) url =
      .ok (pyOr (joinNl ((body.results.getD []).map job_details))
        "No jobs found.") := by
  rw [search_jobs_try_response, if_neg h]
  rfl

/-- The `try` body either succeeds with a string or raises a
`RequestException`; no other exception can escape it. -/
theorem search_jobs_try_classify (up : Upstream) (url : String) :
    (∃ s, search_jobs_try up url = .ok s) ∨
    (∃ m, search_jobs_try up url = .error (.requestException m)) := by
  cases up with
  | transportError msg =>
      right; exact ⟨msg, rfl⟩
  | response status body =>
      by_cases h : 400 ≤ status ∧ status < 600
      · exact Or.inr ⟨_, search_jobs_try_response_error status body url h⟩
      · exact Or.inl ⟨_, search_jobs_try_response_ok status body url h⟩

/-! ### Claim theorems -/

/-- C1: for every combination of credentials and upstream behavior (transport
failure, any HTTP status with any parsed body — including empty or missing
result sets), `_search_jobs` returns a string and never propagates an
exception to its caller. -/
theorem search_jobs_never_raises (env : Env) (role location : String)
    (num_results : Int) (up : Upstream) :
    ∃ s : String, search_jobs env role location num_results up = .ok s := by
  unfold search_jobs
  by_cases hc :
      (!pyTruthy env.adzuna_app_id || !pyTruthy env.adzuna_api_key) = true
  · simp only [hc, if_true]
    exact ⟨_, rfl⟩
  · simp only [hc, if_false, Bool.false_eq_true]
    rcases search_jobs_try_classify up
        (adzuna_url (env.adzuna_app_id.getD "") (env.adzuna_api_key.getD "")
          num_results role location) with ⟨s, hs⟩ | ⟨m, hm⟩
    · rw [hs]; exact ⟨s, rfl⟩
    · rw [hm]; exact ⟨_, rfl⟩

/-- C2: if either credential environment variable is absent, `_search_jobs`
returns exactly the literal missing-credentials diagnostic string. -/
theorem search_jobs_missing_credentials (env : Env) (role location : String)
    (num_results : Int) (up : Upstream)
    (h : env.adzuna_app_id = none ∨ env.adzuna_api_key = none) :
    search_jobs env role location num_results up =
      .ok "Missing ADZUNA_APP_ID or ADZUNA_API_KEY environment variables." := by
  unfold search_jobs
  rcases h with h | h <;> simp [h, pyTruthy]

/-- Witness for C2 at a concrete input: `ADZUNA_APP_ID` unset. -/
theorem search_jobs_missing_credentials_witness :
    search_jobs ⟨none, some "key"⟩ "Senior Business Analyst" "New York" 10
        (.response 200 ⟨some []⟩) =
      .ok "Missing ADZUNA_APP_ID or ADZUNA_API_KEY environment variables." :=
  search_jobs_missing_credentials _ _ _ _ _ (Or.inl rfl)

/-- C3: with credentials present, a transport-level failure or a non-success
(4xx/5xx) HTTP status makes `_search_jobs` return a string of the form
`"Request error: <details>"`. -/
theorem search_jobs_request_error (env : Env) (role location : String)
    (num_results : Int) (up : Upstream)
    (hid : pyTruthy env.adzuna_app_id = true)
    (hkey : pyTruthy env.adzuna_api_key = true)
    (hup : (∃ m, up = .transportError m) ∨
      (∃ st body, up = .response st body ∧ 400 ≤ st ∧ st < 600)) :
    ∃ details, search_jobs env role location num_results up =
      .ok ("Request error: " ++ details) := by
  unfold search_jobs
  simp only [hid, hkey, Bool.not_true, Bool.or_self, if_false,
    Bool.false_eq_true]
  rcases hup with ⟨m, rfl⟩ | ⟨st, body, rfl, h4, h6⟩
  · exact ⟨m, rfl⟩
  · refine ⟨"HTTP error for status " ++ toString st, ?_⟩
    rw [search_jobs_try_response_error st body _ ⟨h4, h6⟩]

/-- Witness for C3 at a concrete input: a transport failure. -/
theorem search_jobs_request_error_witness :
    ∃ details, search_jobs ⟨some "id", some "key"⟩ "Senior Business Analyst"
        "New York" 10 (.transportError "connection refused") =
      .ok ("Request error: " ++ details) :=
  search_jobs_request_error _ _ _ _ _ (by decide) (by decide)
    (Or.inl ⟨"connection refused", rfl⟩)

/-- C4: with credentials present, a success response whose body has zero
result records makes `_search_jobs` return exactly `"No jobs found."`. -/
theorem search_jobs_no_results (env : Env) (role location : String)
    (num_results : Int) (st : Nat)
    (hid : pyTruthy env.adzuna_app_id = true)
    (hkey : pyTruthy env.adzuna_api_key = true)
    (hst : ¬ (400 ≤ st ∧ st < 600)) :
    search_jobs env role location num_results (.response st ⟨some []⟩) =
      .ok "No jobs found." := by
  unfold search_jobs
  simp only [hid, hkey, Bool.not_true, Bool.or_self, if_false,
    Bool.false_eq_true]
  rw [search_jobs_try_response_ok st _ _ hst]
  rfl

/-- Witness for C4 at a concrete input: HTTP 200 with an empty results list. -/
theorem search_jobs_no_results_witness :
    search_jobs ⟨some "id", some "key"⟩ "Senior Business Analyst" "New York"
        10 (.response 200 ⟨some []⟩) = .ok "No jobs found." :=
  search_jobs_no_results _ _ _ _ _ (by decide) (by decide) (by decide)

/-- C10: with credentials present, a success response whose parsed JSON body
has no `results` key is treated as zero records: `_search_jobs` returns
`"No jobs found."` rather than raising or returning an error string. -/
theorem search_jobs_missing_results_key (env : Env) (role location : String)
    (num_results : Int) (st : Nat)
    (hid : pyTruthy env.adzuna_app_id = true)
    (hkey : pyTruthy env.adzuna_api_key = true)
    (hst : ¬ (400 ≤ st ∧ st < 600)) :
    search_jobs env role location num_results (.response st ⟨none⟩) =
      .ok "No jobs found." := by
  unfold search_jobs
  simp only [hid, hkey, Bool.not_true, Bool.or_self, if_false,
    Bool.false_eq_true]
  rw [search_jobs_try_response_ok st _ _ hst]
  rfl

/-- Witness for C10 at a concrete input: HTTP 200 with a body lacking the
`results` key. -/
theorem search_jobs_missing_results_key_witness :
    search_jobs ⟨some "id", some "key"⟩ "Senior Business Analyst" "New York"
        10 (.response 200 ⟨none⟩) = .ok "No jobs found." :=
  search_jobs_missing_results_key _ _ _ _ _ (by decide) (by decide) (by decide)

/-- C5: with credentials present, a success response with at least one
record makes `_search_jobs` return the per-record single-line summaries
joined by a newline separator; in particular two records yield the two lines
joined by one newline. -/
theorem search_jobs_formats_results (env : Env) (role location : String)
    (num_results : Int) (st : Nat) (jobs : List Job)
    (hid : pyTruthy env.adzuna_app_id = true)
    (hkey : pyTruthy env.adzuna_api_key = true)
    (hst : ¬ (400 ≤ st ∧ st < 600)) (hne : jobs ≠ []) :
    search_jobs env role location num_results (.response st ⟨some jobs⟩) =
      .ok (joinNl (jobs.map job_details)) ∧
    ∀ a b : Job, joinNl ([a, b].map job_details) =
      job_details a ++ "\n" ++ job_details b := by
  refine ⟨?_, fun a b => rfl⟩
  unfold search_jobs
  simp only [hid, hkey, Bool.not_true, Bool.or_self, if_false,
    Bool.false_eq_true]
  rw [search_jobs_try_response_ok st _ _ hst]
  cases jobs with
  | nil => exact absurd rfl hne
  | cons j rest =>
      have hne2 : joinNl ((j :: rest).map job_details) ≠ "" :=
        joinNl_cons_ne_empty _ (job_details_ne_empty j) _
      show Except.ok (pyOr (joinNl ((j :: rest).map job_details))
        "No jobs found.") = _
      rw [pyOr, if_neg hne2]

/-- Witness for C5 at a concrete input: two result records. -/
theorem search_jobs_formats_results_witness :
    search_jobs ⟨some "id", some "key"⟩ "Senior Business Analyst" "New York"
        10 (.response 200 ⟨some [⟨"T1", "C1", "L1", "D1"⟩,
          ⟨"T2", "C2", "L2", "D2"⟩]⟩) =
      .ok (joinNl ([(⟨"T1", "C1", "L1", "D1"⟩ : Job),
        ⟨"T2", "C2", "L2", "D2"⟩].map job_details)) :=
  (search_jobs_formats_results _ _ _ _ _ _ (by decide) (by decide)
    (by decide) (by simp)).1

/-- C6: in every formatted summary line, the description field is at most
the first 100 characters of the original description (a prefix of it),
followed by the ellipsis marker `"..."`. -/
theorem job_details_truncates_description (j : Job) :
    (∃ pre, job_details j = pre ++ pyTake j.description 100 ++ "...") ∧
    (pyTake j.description 100).length ≤ 100 ∧
    ∃ rest, j.description.data = (pyTake j.description 100).data ++ rest := by
  refine ⟨⟨"Title: " ++ j.title ++ ", Company: " ++ j.company_display_name ++
    ", Location: " ++ j.location_display_name ++ ", Description: ", rfl⟩,
    ?_, ?_⟩
  · show (j.description.data.take 100).length ≤ 100
    rw [List.length_take]
    exact min_le_left _ _
  · exact ⟨j.description.data.drop 100, (List.take_append_drop 100 _).symm⟩

/-- C7: when the write succeeds, one invocation of the completion hook
appends exactly the task result followed by a blank line to the store, and
a second invocation with the same result appends a second identical block
(append-only, non-deduplicating), with no exception. -/
theorem callback_function_appends (store task_result : String) :
    (callback_function false store task_result).store =
      store ++ (task_result ++ "\n\n") ∧
    (callback_function false
        ((callback_function false store task_result).store)
        task_result).store =
      store ++ (task_result ++ "\n\n") ++ (task_result ++ "\n\n") ∧
    (callback_function false store task_result).exc = none :=
  ⟨rfl, rfl, rfl⟩

/-- C8 counterexample: at the concrete input where the durable write fails,
the exception escapes `callback_function` (there is no `try/except` around
the `with` block) and nothing is reported, contradicting the claim that no
exception propagates out of the hook. -/
theorem callback_function_write_failure_raises :
    ¬ ((callback_function true "" "result").exc = none ∧
       (callback_function true "" "result").printed = true) := by
  intro h
  exact absurd h.1 (by simp [callback_function, withOpenAppend, fileWrite])

/-- C8 (amended): if the durable write fails, the store handle is still
closed on exit (the `with` block guarantees this) and the store is left
unchanged, but the write exception propagates out of the hook and the
success message is not printed. -/
theorem callback_function_write_failure (store task_result : String) :
    (callback_function true store task_result).handleClosed = true ∧
    (callback_function true store task_result).store = store ∧
    (callback_function true store task_result).exc.isSome = true ∧
    (callback_function true store task_result).printed = false :=
  ⟨rfl, rfl, rfl, rfl⟩

/-- C9: each of the three downstream tasks depends exactly on the job-search
task and on nothing else; in every dependency-respecting execution the
job-search task precedes every downstream task; and for any two distinct
downstream tasks some valid execution runs the first before the second (no
ordering constraint between downstream tasks). -/
theorem pipeline_dependency_structure :
    (∀ t : TaskId, t ≠ .job_search → depends_on t = [.job_search]) ∧
    depends_on .job_search = [] ∧
    (∀ ord : List TaskId, ValidExec ord → ∀ t : TaskId, t ≠ .job_search →
      ord.indexOf TaskId.job_search < ord.indexOf t) ∧
    (∀ a b : TaskId, a ≠ .job_search → b ≠ .job_search → a ≠ b →
      ∃ ord : List TaskId, ValidExec ord ∧ ord.indexOf a < ord.indexOf b) := by
  refine ⟨?_, rfl, ?_, ?_⟩
  · intro t ht
    cases t
    · exact absurd rfl ht
    all_goals rfl
  · rintro ord ⟨hnd, hall, hdep⟩ t ht
    have hmem : TaskId.job_search ∈ depends_on t := by
      cases t
      · exact absurd rfl ht
      all_goals exact List.mem_singleton.mpr rfl
    exact hdep t (hall t) _ hmem
  · intro a b ha hb hab
    cases a <;> cases b <;>
      first
        | exact absurd rfl ha
        | exact absurd rfl hb
        | exact absurd rfl hab
        | exact ⟨[.job_search, .skills_highlighting, .interview_preparation,
            .career_advisory], by decide, by decide⟩
        | exact ⟨[.job_search, .career_advisory, .interview_preparation,
            .skills_highlighting], by decide, by decide⟩

/-- Witness for C9: a concrete valid execution order in which the job-search
task precedes the skills-highlighting task. -/
theorem pipeline_dependency_structure_witness :
    [TaskId.job_search, TaskId.skills_highlighting,
      TaskId.interview_preparation, TaskId.career_advisory].indexOf
        TaskId.job_search <
    [TaskId.job_search, TaskId.skills_highlighting,
      TaskId.interview_preparation, TaskId.career_advisory].indexOf
        TaskId.skills_highlighting :=
  pipeline_dependency_structure.2.2.1 _ (by decide)
    TaskId.skills_highlighting (by decide)

end JobSearch
